import Mathlib

/-!
# SmartCanvasV core: shallow embedding and verification

This file embeds the finite-state controller of `smart_canvas/core.py` and the
UI element registry of `smart_canvas/ui.py` into Lean 4 and proves properties
of the embedding.

Modelling conventions:
* Python `time.time()` ticks and the floating-point accumulators are modelled
  as exact rationals (`ℚ`); the program only adds the constants 0.05, 0.1,
  1.5, 4 and 10 to them and compares.
* Frames and masks are opaque data; we represent both by `Nat` and keep the
  external collaborators (gesture classifier, foreground masker, filter
  carousel transforms, `cv2.bitwise_and`) as unconstrained functions in an
  `Env` record, since the spec declares them external to the core.
* A collaborator that can raise returns `Except String _`; a Python exception
  escaping `update` is surfaced as the `Option String` component of the step
  result (mutations performed before the raise are kept, as in Python).
* UI calls made by the core are recorded as events in a trace (the UI sink is
  fire-and-forget from the core's point of view); the classifier, masker and
  filter calls are recorded as events too.
-/

namespace SmartCanvas

/-- Commands the core sends to the UI sink (`self.core.ui.…` calls). -/
inductive UICmd where
  | setText (name text : String)
  | setProg (name : String) (value : ℚ)
  | showEls (names : List String)
  | hideEls (names : List String)
deriving DecidableEq, Repr

/-- Observable events of one `update` dispatch: collaborator calls and UI
commands, in program order. -/
inductive Event where
  | classify (frame result : Nat)
  | maskCall (frame mask : Nat)
  | filterCall (idx frame out : Nat)
  | ui (cmd : UICmd)
deriving DecidableEq, Repr

/-- The external collaborators (spec §2 leaves): gesture classifier,
foreground masker, `cv2.bitwise_and`, and the filter carousel's transform
and naming, indexed by the number of `next_filter` advances so far. -/
structure Env where
  countFingers : Nat → Except String Nat
  fgMask : Nat → Except String Nat
  bitwiseAnd : Nat → Nat → Nat → Nat
  filterTransform : Nat → Nat → Except String Nat
  filterName : Nat → String

/-- The state variants of the controller: `Startup`, `Idle`, `Filter`,
`ShowPic`, each holding exactly the counters its Python class holds
(`Idle.take_pic_cnt`, `Idle.change_filter_time`,
`Idle.finger_frame_interval`, `Filter.countdown_time`,
`ShowPic.show_image_time`). -/
inductive St where
  | startup
  | idle (take_pic_cnt change_filter_time finger_frame_interval : ℚ)
  | filter (countdown_time : ℚ)
  | showPic (show_image_time : ℚ)
deriving DecidableEq, Repr

/-- The mutable fields of `CanvasCore` the state machine touches:
`out_frame`, `filtered_frame`, the carousel's advance count, and the active
state object `_state`. -/
structure Core where
  out_frame : Option Nat
  filtered_frame : Option Nat
  carouselIdx : Nat
  st : St
deriving DecidableEq, Repr

/-- Python `int(q)` on a rational: truncation toward zero. -/
def pyInt (q : ℚ) : ℤ :=
  if q < 0 then -((-q).floor) else q.floor

/-- `Idle.update_filter_trigger`, accumulator part (core.py lines 137-141):
`+= 0.05` on five fingers, else `-= 0.1` when currently positive; no clamp. -/
def update_filter_trigger (take_pic_cnt : ℚ) (finger_count : Nat) : ℚ :=
  if finger_count = 5 then take_pic_cnt + 0.05
  else if 0 < take_pic_cnt then take_pic_cnt - 0.1
  else take_pic_cnt

/-- `Idle.update_filter_carousel` (core.py lines 129-134), acting on the
carousel advance count and `change_filter_time`; returns the UI events it
emits.  Note the guard reads `take_pic_cnt` after `update_filter_trigger`
already ran. -/
def update_filter_carousel (env : Env) (idx : Nat) (take_pic_cnt change_filter_time tick : ℚ)
    (finger_count : Nat) : Nat × ℚ × List Event :=
  if finger_count = 2 ∧ change_filter_time - tick ≤ 0 ∧ take_pic_cnt ≤ 0 then
    (idx + 1, tick + 1.5,
      [.ui (.setText "filter_name" ("Current filter is " ++ env.filterName (idx + 1)))])
  else
    (idx, change_filter_time, [])

/-- `Idle.enter`: show the help/name/progress overlays, reset the bar. -/
def idleEnterEvents : List Event :=
  [.ui (.showEls ["help_1", "help_2", "filter_name", "bar"]),
   .ui (.setProg "bar" 0)]

/-- `Filter.enter` at tick `t`: arm `countdown_time = t + 4`, hide the idle
overlays, set the countdown label to "3" and show it. -/
def filterEnterSt (tick : ℚ) : St := .filter (tick + 4)

/-- The UI events `Filter.enter` emits. -/
def filterEnterEvents : List Event :=
  [.ui (.hideEls ["help_1", "help_2", "filter_name", "bar"]),
   .ui (.setText "countdown" "3"),
   .ui (.showEls ["countdown"])]

/-- `ShowPic.enter` at tick `t`: hide the countdown, arm
`show_image_time = t + 10`. -/
def showPicEnterSt (tick : ℚ) : St := .showPic (tick + 10)

/-- The branch of `Idle.update` taken when the 10 Hz sampling deadline has
fired (core.py lines 121-127): classify, re-arm the deadline, run trigger and
carousel logic, then publish the accumulator to the progress bar.
`c` already has `out_frame` set to the incoming frame. -/
def idleSampled (env : Env) (c : Core) (take_pic_cnt change_filter_time tick : ℚ)
    (frame : Nat) : Core × List Event × Option String :=
  match env.countFingers frame with
  | .error e => (c, [], some e)
  | .ok finger_count =>
    let cnt := update_filter_trigger take_pic_cnt finger_count
    let car := update_filter_carousel env c.carouselIdx cnt change_filter_time tick finger_count
    if 1 ≤ cnt then
      -- `set_state(Filter())` ran inside `update_filter_trigger`; the rest of
      -- the dispatch still executes on the orphaned Idle object.
      ({ c with st := filterEnterSt tick, carouselIdx := car.1 },
       .classify frame finger_count :: filterEnterEvents ++ car.2.2
         ++ [.ui (.setProg "bar" cnt)],
       none)
    else
      ({ c with st := .idle cnt car.2.1 (tick + 0.1), carouselIdx := car.1 },
       .classify frame finger_count :: car.2.2 ++ [.ui (.setProg "bar" cnt)],
       none)

/-- The expired branch of `Filter.update` (core.py lines 163-171): hide the
countdown, run `apply_filter` (masker, `cv2.bitwise_and`, carousel filter),
then `set_state(ShowPic())`. -/
def filterExpired (env : Env) (c : Core) (tick : ℚ) (frame : Nat) :
    Core × List Event × Option String :=
  match env.fgMask frame with
  | .error e => (c, [.ui (.hideEls ["countdown"])], some e)
  | .ok fg_mask =>
    let masked_frame := env.bitwiseAnd frame frame fg_mask
    match env.filterTransform c.carouselIdx masked_frame with
    | .error e => (c, [.ui (.hideEls ["countdown"]), .maskCall frame fg_mask], some e)
    | .ok out =>
      ({ c with filtered_frame := some out, st := showPicEnterSt tick },
       [.ui (.hideEls ["countdown"]), .maskCall frame fg_mask,
        .filterCall c.carouselIdx masked_frame out, .ui (.hideEls ["countdown"])],
       none)

/-- One `update(tick, frame)` dispatch of the active state (core.py line 50):
the resulting core, the emitted events, and the exception, if one escaped. -/
def update (env : Env) (c : Core) (tick : ℚ) (frame : Nat) :
    Core × List Event × Option String :=
  match c.st with
  | .startup =>
      -- `Startup.update` ignores the frame and runs `set_state(Idle())`.
      ({ c with st := .idle 0 0 0 }, idleEnterEvents, none)
  | .idle take_pic_cnt change_filter_time finger_frame_interval =>
      let c1 := { c with out_frame := some frame }
      if finger_frame_interval - tick < 0 then
        idleSampled env c1 take_pic_cnt change_filter_time tick frame
      else
        (c1, [], none)
  | .filter countdown_time =>
      if 0 < countdown_time - tick then
        ({ c with out_frame := some frame },
         [.ui (.setText "countdown" (toString (pyInt (countdown_time - tick))))],
         none)
      else
        filterExpired env c tick frame
  | .showPic show_image_time =>
      let c1 := { c with out_frame := c.filtered_frame }
      if show_image_time - tick < 0 then
        ({ c1 with st := .idle 0 0 0 }, idleEnterEvents, none)
      else
        (c1, [], none)

/-- The consuming loop `CanvasCore.process` over a finite schedule of
`(tick, frame)` pairs: one `update` per frame; an uncaught exception
terminates the loop (there is no handler in `process`). -/
def processFrames (env : Env) (c : Core) : List (ℚ × Nat) → Core × Option String
  | [] => (c, none)
  | (tick, frame) :: rest =>
    match update env c tick frame with
    | (c1, _, some e) => (c1, some e)
    | (c1, _, none) => processFrames env c1 rest

/-- A freshly constructed `CanvasCore` state slot right after `Startup`. -/
def initCore : Core :=
  { out_frame := none, filtered_frame := none, carouselIdx := 0, st := .startup }

/-! ### Concrete collaborator environments used for witnesses -/

/-- An environment whose classifier always reports five fingers. -/
def envAllFive : Env :=
  { countFingers := fun _ => .ok 5
    fgMask := fun _ => .ok 9
    bitwiseAnd := fun a _ m => a + m
    filterTransform := fun i f => .ok (i + 2 * f)
    filterName := fun i => toString i }

/-- An environment whose classifier reports five fingers on frame `0` and
zero fingers on every other frame. -/
def envFiveThenZero : Env :=
  { envAllFive with countFingers := fun f => .ok (if f = 0 then 5 else 0) }

/-- An environment whose classifier always reports two fingers. -/
def envAllTwo : Env :=
  { envAllFive with countFingers := fun _ => .ok 2 }

/-- An environment whose classifier raises on every frame. -/
def envClassifierBoom : Env :=
  { envAllFive with countFingers := fun _ => .error "boom" }

/-- An environment whose foreground masker raises on every frame. -/
def envMaskBoom : Env :=
  { envAllFive with fgMask := fun _ => .error "mask-fail" }

/-- An environment whose filter transform raises on every frame. -/
def envFilterBoom : Env :=
  { envAllFive with filterTransform := fun _ _ => .error "filter-fail" }

/-- The core right after `Startup.update` installed a fresh `Idle`. -/
def idleFresh : Core := { initCore with st := .idle 0 0 0 }

/-- A core sitting in `Filter` with the countdown armed at `4`. -/
def filterAt4 : Core := { initCore with st := .filter 4 }

/-- A core sitting in `ShowPic` with the display-end deadline `10` and a
computed filtered frame `7`. -/
def showPicAt10 : Core := { initCore with st := .showPic 10, filtered_frame := some 7 }

/-! ### State variant tags, fresh construction and entry hooks -/

/-- The variant tag of a state object. -/
inductive Tag where
  | startup
  | idle
  | filter
  | showPic
deriving DecidableEq, Repr

/-- The tag of a state value. -/
def stTag : St → Tag
  | .startup => .startup
  | .idle _ _ _ => .idle
  | .filter _ => .filter
  | .showPic _ => .showPic

/-- The freshly constructed (`__init__`) state of each variant: every
internal counter starts at zero. -/
def freshSt : Tag → St
  | .startup => .startup
  | .idle => .idle 0 0 0
  | .filter => .filter 0
  | .showPic => .showPic 0

/-- The effect of each variant's `enter(tick)` hook on its own counters:
`Idle.enter` touches none, `Filter.enter` arms `tick + 4`, `ShowPic.enter`
arms `tick + 10`. -/
def stateEnter : St → ℚ → St
  | .startup, _ => .startup
  | .idle a b f, _ => .idle a b f
  | .filter _, tick => .filter (tick + 4)
  | .showPic _, tick => .showPic (tick + 10)

/-! ### The UI element registry of `smart_canvas/ui.py` -/

/-- Element kinds held in `UI.elements`: `TextWriterTest` or `Progressbar`. -/
inductive ElemKind where
  | textEl
  | progEl
deriving DecidableEq, Repr

/-- A UI element: its kind, visibility flag and scale attribute
(`Progressbar._scale`; on a text element Python would simply create the
attribute on assignment). -/
structure Elem where
  kind : ElemKind
  visible : Bool
  scale : ℚ
deriving DecidableEq, Repr

/-- Python dict assignment `d[k] = v` on an association list. -/
def dictSet (l : List (String × α)) (k : String) (v : α) : List (String × α) :=
  match l with
  | [] => [(k, v)]
  | (k', v') :: rest => if k' = k then (k, v) :: rest else (k', v') :: dictSet rest k v

/-- Python dict lookup `d.get(k)` on an association list. -/
def dictFind (l : List (String × α)) (k : String) : Option α :=
  match l with
  | [] => none
  | (k', v') :: rest => if k' = k then some v' else dictFind rest k

/-- The `UI` registry: the `elements` dict and the pending `texts` dict. -/
structure UIState where
  elements : List (String × Elem)
  texts : List (String × String)
deriving DecidableEq, Repr

/-- `UI.create_text`: a `TextWriterTest` starts invisible. -/
def create_text (ui : UIState) (name : String) : UIState :=
  { ui with elements := dictSet ui.elements name ⟨.textEl, false, 0⟩ }

/-- `UI.create_progressbar`: a `Progressbar` starts visible with scale 0. -/
def create_progressbar (ui : UIState) (name : String) : UIState :=
  { ui with elements := dictSet ui.elements name ⟨.progEl, true, 0⟩ }

/-- `UI.set_text`: raises `KeyError` when the name was never created,
otherwise stores the pending text. -/
def set_text (ui : UIState) (name text : String) : Except String UIState :=
  match dictFind ui.elements name with
  | none => .error "KeyError"
  | some _ => .ok { ui with texts := dictSet ui.texts name text }

/-- Assigning `elem.scale = v`: the `Progressbar` property setter clamps
below `0`; on a text element Python plainly sets the attribute. -/
def setScale (e : Elem) (v : ℚ) : Elem :=
  match e.kind with
  | .progEl => { e with scale := if v < 0 then 0 else v }
  | .textEl => { e with scale := v }

/-- `UI.set_prog`: raises `KeyError` when the name was never created,
otherwise assigns the element's scale. -/
def set_prog (ui : UIState) (name : String) (value : ℚ) : Except String UIState :=
  match dictFind ui.elements name with
  | none => .error "KeyError"
  | some e => .ok { ui with elements := dictSet ui.elements name (setScale e value) }

/-- `UI.show`: sets each named element visible in order; raises `KeyError`
at the first missing name (mutations already made are kept, as in Python). -/
def uiShow (ui : UIState) : List String → UIState × Option String
  | [] => (ui, none)
  | n :: rest =>
    match dictFind ui.elements n with
    | some e =>
        uiShow { ui with elements := dictSet ui.elements n { e with visible := true } } rest
    | none => (ui, some "KeyError")

/-- `UI.hide`: sets each named element invisible in order; raises `KeyError`
at the first missing name. -/
def uiHide (ui : UIState) : List String → UIState × Option String
  | [] => (ui, none)
  | n :: rest =>
    match dictFind ui.elements n with
    | some e =>
        uiHide { ui with elements := dictSet ui.elements n { e with visible := false } } rest
    | none => (ui, some "KeyError")

/-- The UI registry as `Startup.enter` leaves it: the four text elements and
the progress bar created. -/
def startupUI : UIState :=
  create_progressbar
    (create_text (create_text (create_text (create_text
      ⟨[], []⟩ "help_1") "help_2") "countdown") "filter_name") "bar"

/-! ### The capture-intent accumulator (claim C1) -/

/-- One accumulator step lands on a multiple of `1/20` and stays `≥ -1/20`,
in scaled form. -/
lemma trigger_step_scaled (k : ℤ) (hb : -1 ≤ k) (fc : Nat) :
    ∃ k' : ℤ, update_filter_trigger ((k : ℚ) * (1 / 20)) fc = (k' : ℚ) * (1 / 20)
      ∧ -1 ≤ k' := by
  unfold update_filter_trigger
  split_ifs with h1 h2
  · exact ⟨k + 1, by push_cast; ring, by omega⟩
  · have hk : (0 : ℚ) < (k : ℚ) := by nlinarith
    have hk' : (0 : ℤ) < k := by exact_mod_cast hk
    exact ⟨k - 2, by push_cast; ring, by omega⟩
  · exact ⟨k, rfl, hb⟩

/-- Folding the accumulator step over any sample sequence stays on multiples
of `1/20` bounded below by `-1/20`, in scaled form. -/
lemma trigger_foldl_scaled (fcs : List Nat) (k : ℤ) (hb : -1 ≤ k) :
    ∃ k' : ℤ, List.foldl update_filter_trigger ((k : ℚ) * (1 / 20)) fcs
        = (k' : ℚ) * (1 / 20) ∧ -1 ≤ k' := by
  induction fcs generalizing k with
  | nil => exact ⟨k, rfl, hb⟩
  | cons fc rest ih =>
    obtain ⟨k1, hk1, hb1⟩ := trigger_step_scaled k hb fc
    obtain ⟨k', hk', hb'⟩ := ih k1 hb1
    exact ⟨k', by rw [List.foldl_cons, hk1]; exact hk', hb'⟩

/-- A sustained run of five-finger samples adds `N * 1/20`. -/
lemma trigger_replicate_five (N : ℕ) (x : ℚ) :
    List.foldl update_filter_trigger x (List.replicate N 5) = x + (N : ℚ) * (1 / 20) := by
  induction N generalizing x with
  | zero => simp
  | succ n ih =>
    rw [List.replicate_succ, List.foldl_cons, ih]
    unfold update_filter_trigger
    norm_num
    ring

/-- C1, counterexample: starting from a fresh `Idle`, one qualifying
five-finger sample followed by one interrupting sample leaves the
capture-intent accumulator at `-0.05`: it is negative, and it differs from
the claimed `max 0 (1 * 0.05 - 0.1) = 0`, because `update_filter_trigger`
has no floor at `0`. -/
theorem accumulator_goes_negative_cex :
    (processFrames envFiveThenZero idleFresh [(1, 0), (2, 1)]).1.st
        = .idle (-(1 / 20)) 0 (21 / 10)
    ∧ (-(1 / 20) : ℚ) < 0
    ∧ (-(1 / 20) : ℚ) ≠ max 0 (1 * (0.05 : ℚ) - 0.1) := by
  refine ⟨?_, by norm_num, ?_⟩
  · norm_num [processFrames, update, idleSampled, update_filter_trigger,
      update_filter_carousel, envFiveThenZero, envAllFive, idleFresh, initCore]
  · rw [show max 0 (1 * (0.05 : ℚ) - 0.1) = 0 by norm_num]
    norm_num

/-- C1 (amended): in `Idle`, a sampled five-finger update adds `0.05` to the
capture-intent accumulator and an interrupting sampled update subtracts
`0.1` only when the accumulator is currently positive, with no floor at `0`;
over every sample sequence from `0` the accumulator stays `≥ -0.05`, and a
single interrupting sample after `N ≥ 1` qualifying samples leaves exactly
`N * 0.05 - 0.1` (which is negative for `N = 1`), while after `N = 0` it
leaves `0`. -/
theorem accumulator_lower_bound_and_interrupt (fcs : List Nat) (N : ℕ) (fc : Nat)
    (hfc : fc ≠ 5) :
    -(1 / 20) ≤ List.foldl update_filter_trigger 0 fcs
    ∧ List.foldl update_filter_trigger 0 (List.replicate N 5 ++ [fc])
        = if N = 0 then 0 else (N : ℚ) * 0.05 - 0.1 := by
  constructor
  · obtain ⟨k', hk', hb'⟩ := trigger_foldl_scaled fcs 0 (by norm_num)
    have h0 : ((0 : ℤ) : ℚ) * (1 / 20) = 0 := by norm_num
    rw [h0] at hk'
    rw [hk']
    have hc : (-1 : ℚ) ≤ (k' : ℚ) := by exact_mod_cast hb'
    nlinarith
  · rw [List.foldl_append, trigger_replicate_five]
    rcases Nat.eq_zero_or_pos N with h | h
    · subst h
      simp [update_filter_trigger, hfc]
    · rw [if_neg (by omega)]
      have h1 : (1 : ℚ) ≤ (N : ℚ) := by exact_mod_cast h
      have hpos : (0 : ℚ) < 0 + (N : ℚ) * (1 / 20) := by nlinarith
      simp only [List.foldl_cons, List.foldl_nil]
      unfold update_filter_trigger
      rw [if_neg hfc, if_pos hpos]
      norm_num

/-- C1 witness: the amended statement evaluated at the sample run `[5, 0]`
and at `N = 1` qualifying samples interrupted by a zero-finger sample. -/
theorem accumulator_lower_bound_and_interrupt_witness :
    -(1 / 20) ≤ List.foldl update_filter_trigger 0 [5, 0]
    ∧ List.foldl update_filter_trigger 0 (List.replicate 1 5 ++ [0])
        = if (1 : ℕ) = 0 then 0 else ((1 : ℕ) : ℚ) * 0.05 - 0.1 :=
  ⟨(accumulator_lower_bound_and_interrupt [5, 0] 1 0 (by norm_num)).1,
   (accumulator_lower_bound_and_interrupt (List.replicate 1 5 ++ [0]) 1 0 (by norm_num)).2⟩

/-- C2, counterexample: from a fresh `Idle` under sustained five-finger
samples at ticks `1..20`, the state after the dispatch that takes the 20th
qualifying sample is already `Filter` (armed `20 + 4`): the transition
happens during that dispatch, not on the next update dispatch after it. -/
theorem filter_entered_on_twentieth_sample_cex :
    (processFrames envAllFive idleFresh
      [(1, 0), (2, 0), (3, 0), (4, 0), (5, 0), (6, 0), (7, 0), (8, 0), (9, 0), (10, 0),
       (11, 0), (12, 0), (13, 0), (14, 0), (15, 0), (16, 0), (17, 0), (18, 0), (19, 0),
       (20, 0)]).1.st = .filter 24 := by
  norm_num [processFrames, update, idleSampled, update_filter_trigger,
    update_filter_carousel, filterEnterSt, envAllFive, idleFresh, initCore]

/-- C2 (amended): a sampled `Idle` update transitions to `Filter` (arming the
countdown at `tick + 4`) exactly when the accumulator, after the sample's
increment or decrement, has reached `≥ 1.0`; from a fresh `Idle` under
sustained five-finger samples, 19 samples leave the accumulator at `0.95`
still in `Idle`, and the transition happens during the dispatch that takes
the 20th qualifying sample. -/
theorem idle_transitions_iff_accumulator_reaches_one (env : Env) (c : Core)
    (cnt cft ffi tick : ℚ) (frame fc : Nat)
    (hst : c.st = .idle cnt cft ffi) (hs : ffi - tick < 0)
    (hfc : env.countFingers frame = .ok fc) :
    ((update env c tick frame).1.st = .filter (tick + 4)
        ↔ 1 ≤ update_filter_trigger cnt fc)
    ∧ (processFrames envAllFive idleFresh
        [(1, 0), (2, 0), (3, 0), (4, 0), (5, 0), (6, 0), (7, 0), (8, 0), (9, 0), (10, 0),
         (11, 0), (12, 0), (13, 0), (14, 0), (15, 0), (16, 0), (17, 0), (18, 0),
         (19, 0)]).1.st = .idle (19 / 20) 0 (191 / 10)
    ∧ (processFrames envAllFive idleFresh
        [(1, 0), (2, 0), (3, 0), (4, 0), (5, 0), (6, 0), (7, 0), (8, 0), (9, 0), (10, 0),
         (11, 0), (12, 0), (13, 0), (14, 0), (15, 0), (16, 0), (17, 0), (18, 0), (19, 0),
         (20, 0)]).1.st = .filter 24 := by
  refine ⟨?_, ?_, ?_⟩
  · obtain ⟨o, fl, idx, stv⟩ := c
    cases hst
    by_cases h : 1 ≤ update_filter_trigger cnt fc
    · simp [update, idleSampled, hfc, hs, filterEnterSt, h]
    · simp [update, idleSampled, hfc, hs, filterEnterSt, h]
  · norm_num [processFrames, update, idleSampled, update_filter_trigger,
      update_filter_carousel, filterEnterSt, envAllFive, idleFresh, initCore]
  · norm_num [processFrames, update, idleSampled, update_filter_trigger,
      update_filter_carousel, filterEnterSt, envAllFive, idleFresh, initCore]

/-- C2 witness: the amended statement at a fresh `Idle`, tick `1`, frame `0`
under the all-five classifier. -/
theorem idle_transitions_iff_accumulator_reaches_one_witness :
    ((update envAllFive idleFresh 1 0).1.st = .filter (1 + 4)
        ↔ 1 ≤ update_filter_trigger 0 5)
    ∧ (processFrames envAllFive idleFresh
        [(1, 0), (2, 0), (3, 0), (4, 0), (5, 0), (6, 0), (7, 0), (8, 0), (9, 0), (10, 0),
         (11, 0), (12, 0), (13, 0), (14, 0), (15, 0), (16, 0), (17, 0), (18, 0),
         (19, 0)]).1.st = .idle (19 / 20) 0 (191 / 10)
    ∧ (processFrames envAllFive idleFresh
        [(1, 0), (2, 0), (3, 0), (4, 0), (5, 0), (6, 0), (7, 0), (8, 0), (9, 0), (10, 0),
         (11, 0), (12, 0), (13, 0), (14, 0), (15, 0), (16, 0), (17, 0), (18, 0), (19, 0),
         (20, 0)]).1.st = .filter 24 :=
  idle_transitions_iff_accumulator_reaches_one envAllFive idleFresh 0 0 0 1 0 5
    rfl (by norm_num) rfl

/-- C3 (confirmed): on a sampled `Idle` update the filter carousel is
advanced, the rotation cooldown re-armed to `tick + 1.5`, and the
filter-name label updated, exactly when the finger count is `2`, the
rotation cooldown deadline has expired (`change_filter_time - tick ≤ 0`),
and the capture-intent accumulator is `≤ 0` at its current value when the
check runs (the code checks `take_pic_cnt` after `update_filter_trigger`
already processed this sample); in particular no rotation happens while the
accumulator is positive. -/
theorem carousel_rotation_iff (env : Env) (c : Core)
    (cnt cft ffi tick : ℚ) (frame fc : Nat)
    (hst : c.st = .idle cnt cft ffi) (hs : ffi - tick < 0)
    (hfc : env.countFingers frame = .ok fc) :
    ((fc = 2 ∧ cft - tick ≤ 0 ∧ update_filter_trigger cnt fc ≤ 0) →
      (update env c tick frame).1.carouselIdx = c.carouselIdx + 1
      ∧ (update env c tick frame).1.st
          = .idle (update_filter_trigger cnt fc) (tick + 1.5) (tick + 0.1)
      ∧ .ui (.setText "filter_name"
            ("Current filter is " ++ env.filterName (c.carouselIdx + 1)))
          ∈ (update env c tick frame).2.1)
    ∧ (¬ (fc = 2 ∧ cft - tick ≤ 0 ∧ update_filter_trigger cnt fc ≤ 0) →
      (update env c tick frame).1.carouselIdx = c.carouselIdx
      ∧ ∀ s, .ui (.setText "filter_name" s) ∉ (update env c tick frame).2.1)
    ∧ (0 < update_filter_trigger cnt fc →
      (update env c tick frame).1.carouselIdx = c.carouselIdx) := by
  obtain ⟨o, fl, idx, stv⟩ := c
  cases hst
  by_cases hr : fc = 2 ∧ cft - tick ≤ 0 ∧ update_filter_trigger cnt fc ≤ 0
  · obtain ⟨h2, hcd, hle⟩ := hr
    subst h2
    have hnt : ¬ 1 ≤ update_filter_trigger cnt 2 := by linarith
    refine ⟨fun _ => ?_, fun hcon => absurd ⟨rfl, hcd, hle⟩ hcon, fun hpos => by linarith⟩
    simp [update, idleSampled, hfc, hs, update_filter_carousel, hcd, hle, hnt]
  · have hr' : ¬ (fc = 2 ∧ cft ≤ tick ∧ update_filter_trigger cnt fc ≤ 0) := by
      simpa [sub_nonpos] using hr
    have hidx : (update env ⟨o, fl, idx, .idle cnt cft ffi⟩ tick frame).1.carouselIdx = idx := by
      by_cases htr : 1 ≤ update_filter_trigger cnt fc
      · simp [update, idleSampled, hfc, hs, update_filter_carousel, hr', htr]
      · simp [update, idleSampled, hfc, hs, update_filter_carousel, hr', htr]
    refine ⟨fun hcon => absurd hcon hr, fun _ => ⟨hidx, fun s => ?_⟩, fun _ => hidx⟩
    by_cases htr : 1 ≤ update_filter_trigger cnt fc
    · simp [update, idleSampled, hfc, hs, update_filter_carousel, hr', htr,
        filterEnterEvents]
    · simp [update, idleSampled, hfc, hs, update_filter_carousel, hr', htr]

/-- C3 witness: with the all-two classifier, a fresh `Idle` at tick `1`
satisfies the rotation condition, so the carousel advances, the cooldown is
re-armed to `2.5` and the label is updated. -/
theorem carousel_rotation_iff_witness :
    ((2 : Nat) = 2 ∧ (0 : ℚ) - 1 ≤ 0 ∧ update_filter_trigger 0 2 ≤ 0 →
      (update envAllTwo idleFresh 1 0).1.carouselIdx = idleFresh.carouselIdx + 1
      ∧ (update envAllTwo idleFresh 1 0).1.st
          = .idle (update_filter_trigger 0 2) (1 + 1.5) (1 + 0.1)
      ∧ .ui (.setText "filter_name"
            ("Current filter is " ++ envAllTwo.filterName (idleFresh.carouselIdx + 1)))
          ∈ (update envAllTwo idleFresh 1 0).2.1)
    ∧ (¬ ((2 : Nat) = 2 ∧ (0 : ℚ) - 1 ≤ 0 ∧ update_filter_trigger 0 2 ≤ 0) →
      (update envAllTwo idleFresh 1 0).1.carouselIdx = idleFresh.carouselIdx
      ∧ ∀ s, .ui (.setText "filter_name" s) ∉ (update envAllTwo idleFresh 1 0).2.1)
    ∧ (0 < update_filter_trigger 0 2 →
      (update envAllTwo idleFresh 1 0).1.carouselIdx = idleFresh.carouselIdx) :=
  carousel_rotation_iff envAllTwo idleFresh 0 0 0 1 0 2 rfl (by norm_num) rfl

/-- Python `int()` agrees with the mathematical floor on non-negative
rationals. -/
lemma pyInt_eq_floor (q : ℚ) (h : ¬ q < 0) : pyInt q = ⌊q⌋ := by
  unfold pyInt
  rw [if_neg h, Rat.floor_def', Rat.floor_def]

/-- C4 (confirmed): any dispatch that transitions into `Filter` arms the
countdown deadline at `tick + 4` (`Filter.enter` also sets the label to "3"
and shows it, see `filterEnterEvents`); while the deadline has not expired,
an update publishes the incoming frame as the display frame and sets the
countdown label to `⌊countdown_time - tick⌋`; at the first update with the
deadline expired (`countdown_time - tick ≤ 0`, i.e. tick ≥ deadline) the
countdown is hidden, the pipeline runs exactly once on that update's frame
— foreground mask, `cv2.bitwise_and`, then the carousel's current filter —
its result is stored as the filtered frame, and the state transitions to
`ShowPic`. -/
theorem filter_countdown_and_pipeline (env : Env) (c : Core)
    (cdt tick : ℚ) (frame mk out : Nat)
    (hst : c.st = .filter cdt) :
    (∀ c₂ : Core, stTag c₂.st ≠ .filter →
      ∀ x, (update env c₂ tick frame).1.st = .filter x → x = tick + 4)
    ∧ (0 < cdt - tick →
      update env c tick frame
        = ({ c with out_frame := some frame },
           [.ui (.setText "countdown" (toString ⌊cdt - tick⌋))], none))
    ∧ (cdt - tick ≤ 0 →
      env.fgMask frame = .ok mk →
      env.filterTransform c.carouselIdx (env.bitwiseAnd frame frame mk) = .ok out →
      update env c tick frame
        = ({ c with filtered_frame := some out, st := .showPic (tick + 10) },
           [.ui (.hideEls ["countdown"]), .maskCall frame mk,
            .filterCall c.carouselIdx (env.bitwiseAnd frame frame mk) out,
            .ui (.hideEls ["countdown"])], none)) := by
  refine ⟨?_, ?_, ?_⟩
  · intro c₂ htag x hx
    obtain ⟨o, fl, idx, stv⟩ := c₂
    cases stv with
    | startup => simp [update] at hx
    | filter q => exact absurd (by simp [stTag]) htag
    | showPic q =>
        by_cases hexp : q - tick < 0
        · simp [update, hexp] at hx
        · simp [update, hexp] at hx
    | idle a b f =>
        by_cases hsamp : f - tick < 0
        · rcases henv : env.countFingers frame with e | fc
          · simp [update, hsamp, idleSampled, henv] at hx
          · by_cases htr : 1 ≤ update_filter_trigger a fc
            · simp [update, hsamp, idleSampled, henv, htr, filterEnterSt] at hx
              exact hx.symm
            · simp [update, hsamp, idleSampled, henv, htr] at hx
        · simp [update, hsamp] at hx
  · intro hrun
    obtain ⟨o, fl, idx, stv⟩ := c
    cases hst
    rw [← pyInt_eq_floor (cdt - tick) (by linarith)]
    simp [update, hrun]
  · intro hexp hmk htr
    obtain ⟨o, fl, idx, stv⟩ := c
    cases hst
    have hneg : ¬ 0 < cdt - tick := not_lt.mpr hexp
    simp [update, hneg, filterExpired, hmk, htr, showPicEnterSt]

/-- C4 witness: in `Filter` armed at `4`, an update at tick `5` (deadline
expired) with the all-five environment runs the pipeline on frame `3`
(mask `9`, masked frame `12`, filtered frame `24`) and enters `ShowPic`. -/
theorem filter_countdown_and_pipeline_witness :
    (∀ c₂ : Core, stTag c₂.st ≠ .filter →
      ∀ x, (update envAllFive c₂ 5 3).1.st = .filter x → x = 5 + 4)
    ∧ (0 < (4 : ℚ) - 5 →
      update envAllFive filterAt4 5 3
        = ({ filterAt4 with out_frame := some 3 },
           [.ui (.setText "countdown" (toString ⌊(4 : ℚ) - 5⌋))], none))
    ∧ ((4 : ℚ) - 5 ≤ 0 →
      envAllFive.fgMask 3 = .ok 9 →
      envAllFive.filterTransform filterAt4.carouselIdx (envAllFive.bitwiseAnd 3 3 9) = .ok 24 →
      update envAllFive filterAt4 5 3
        = ({ filterAt4 with filtered_frame := some 24, st := .showPic (5 + 10) },
           [.ui (.hideEls ["countdown"]), .maskCall 3 9,
            .filterCall filterAt4.carouselIdx (envAllFive.bitwiseAnd 3 3 9) 24,
            .ui (.hideEls ["countdown"])], none)) :=
  filter_countdown_and_pipeline envAllFive filterAt4 4 5 3 9 24 rfl

/-- C5, counterexample: a `ShowPic` core with display-end deadline `10`
does not transition at tick exactly `10`: the code requires
`show_image_time - tick < 0` (tick strictly past the deadline), so with
"expired" read as "current tick ≥ deadline" the claimed transition point is
wrong. -/
theorem showpic_no_transition_at_deadline_cex :
    (update envAllFive showPicAt10 10 3).1.st = .showPic 10 := by
  norm_num [update, showPicAt10, initCore]

/-- C5 (amended): entering `ShowPic` at tick `T` hides the countdown and
arms the display-end deadline at `T + 10`; every update publishes the
previously computed filtered frame (never the live frame) as the display
frame; the transition to `Idle` happens exactly when the deadline has
strictly passed (`show_image_time - tick < 0`, i.e. tick > deadline) — at
`T + 9.99` and at `T + 10` no transition has occurred, at `T + 10.01` it
has. -/
theorem showpic_behavior (env : Env) (c : Core) (sit tick : ℚ) (frame : Nat)
    (hst : c.st = .showPic sit) :
    (update env c tick frame).1.out_frame = c.filtered_frame
    ∧ ((update env c tick frame).1.st = .idle 0 0 0 ↔ sit - tick < 0)
    ∧ (¬ sit - tick < 0 → (update env c tick frame).1.st = c.st)
    ∧ (∀ c₂ : Core, stTag c₂.st ≠ .showPic →
        ∀ x, (update env c₂ tick frame).1.st = .showPic x →
          x = tick + 10 ∧ .ui (.hideEls ["countdown"]) ∈ (update env c₂ tick frame).2.1)
    ∧ (update envAllFive showPicAt10 9.99 3).1.st = .showPic 10
    ∧ (update envAllFive showPicAt10 10.01 3).1.st = .idle 0 0 0 := by
  obtain ⟨o, fl, idx, stv⟩ := c
  cases hst
  refine ⟨?_, ?_, ?_, ?_, ?_, ?_⟩
  · by_cases hexp : sit - tick < 0
    · simp [update, hexp]
    · simp [update, hexp]
  · by_cases hexp : sit - tick < 0
    · simp [update, hexp]
    · simp [update, hexp]
  · intro hexp
    simp [update, hexp]
  · intro c₂ htag x hx
    obtain ⟨o₂, fl₂, idx₂, stv₂⟩ := c₂
    cases stv₂ with
    | startup => exact absurd hx (by simp [update])
    | showPic q => exact absurd (by simp [stTag]) htag
    | idle a b f =>
        by_cases hsamp : f - tick < 0
        · rcases henv : env.countFingers frame with e | fc
          · simp [update, hsamp, idleSampled, henv] at hx
          · by_cases htr : 1 ≤ update_filter_trigger a fc
            · simp [update, hsamp, idleSampled, henv, htr, filterEnterSt] at hx
            · simp [update, hsamp, idleSampled, henv, htr] at hx
        · simp [update, hsamp] at hx
    | filter q =>
        by_cases hrun : 0 < q - tick
        · simp [update, hrun] at hx
        · rcases hmk : env.fgMask frame with e | mk
          · simp [update, hrun, filterExpired, hmk] at hx
          · rcases htr : env.filterTransform idx₂ (env.bitwiseAnd frame frame mk) with e | out
            · simp [update, hrun, filterExpired, hmk, htr] at hx
            · refine ⟨?_, ?_⟩
              · have := hx
                simp [update, hrun, filterExpired, hmk, htr, showPicEnterSt] at this
                exact this.symm
              · simp [update, hrun, filterExpired, hmk, htr]
  · norm_num [update, showPicAt10, initCore]
  · norm_num [update, showPicAt10, initCore]

/-- C5 witness: the amended statement at the concrete `ShowPic` core
(deadline `10`, filtered frame `7`) updated at tick `3`. -/
theorem showpic_behavior_witness :
    (update envAllFive showPicAt10 3 5).1.out_frame = showPicAt10.filtered_frame
    ∧ ((update envAllFive showPicAt10 3 5).1.st = .idle 0 0 0 ↔ (10 : ℚ) - 3 < 0)
    ∧ (¬ (10 : ℚ) - 3 < 0 → (update envAllFive showPicAt10 3 5).1.st = showPicAt10.st)
    ∧ (∀ c₂ : Core, stTag c₂.st ≠ .showPic →
        ∀ x, (update envAllFive c₂ 3 5).1.st = .showPic x →
          x = 3 + 10 ∧ .ui (.hideEls ["countdown"]) ∈ (update envAllFive c₂ 3 5).2.1)
    ∧ (update envAllFive showPicAt10 9.99 3).1.st = .showPic 10
    ∧ (update envAllFive showPicAt10 10.01 3).1.st = .idle 0 0 0 :=
  showpic_behavior envAllFive showPicAt10 10 3 5 rfl

/-- C6, counterexample: in `Idle` with sampling deadline `5`, the update at
tick exactly `5` makes no classifier call and changes nothing besides the
published display frame, although "current tick ≥ sample deadline" holds:
the code fires only when `finger_frame_interval - tick < 0` (strictly
past). -/
theorem sampling_no_fire_at_deadline_cex :
    update envAllFive { initCore with st := .idle 0 0 5 } 5 0
      = ({ initCore with st := .idle 0 0 5, out_frame := some 0 }, [], none) := by
  norm_num [update, initCore]

/-- C6 (amended): in `Idle`, the gesture classifier is called on an update
exactly when the sampling deadline has strictly passed
(`finger_frame_interval - tick < 0`, i.e. tick > deadline, not tick ≥);
when it fires the deadline is re-armed to `tick + 0.1`, and on an update
between deadlines no collaborator call or UI command happens and no counter
changes — only the display frame is published. -/
theorem idle_sampling_gate (env : Env) (c : Core) (cnt cft ffi tick : ℚ)
    (frame fc : Nat)
    (hst : c.st = .idle cnt cft ffi) (hfc : env.countFingers frame = .ok fc) :
    ((∃ g r, .classify g r ∈ (update env c tick frame).2.1) ↔ ffi - tick < 0)
    ∧ (ffi - tick < 0 →
        .classify frame fc ∈ (update env c tick frame).2.1
        ∧ (¬ 1 ≤ update_filter_trigger cnt fc →
            (update env c tick frame).1.st
              = .idle (update_filter_trigger cnt fc)
                  ((update_filter_carousel env c.carouselIdx
                      (update_filter_trigger cnt fc) cft tick fc).2.1)
                  (tick + 0.1)))
    ∧ (¬ ffi - tick < 0 →
        update env c tick frame = ({ c with out_frame := some frame }, [], none)) := by
  obtain ⟨o, fl, idx, stv⟩ := c
  cases hst
  by_cases hsamp : ffi - tick < 0
  · refine ⟨⟨fun _ => hsamp, fun _ => ?_⟩, fun _ => ⟨?_, fun htr => ?_⟩, fun hcon => absurd hsamp hcon⟩
    · by_cases htr : 1 ≤ update_filter_trigger cnt fc
      · exact ⟨frame, fc, by simp [update, hsamp, idleSampled, hfc, htr]⟩
      · exact ⟨frame, fc, by simp [update, hsamp, idleSampled, hfc, htr]⟩
    · by_cases htr : 1 ≤ update_filter_trigger cnt fc
      · simp [update, hsamp, idleSampled, hfc, htr]
      · simp [update, hsamp, idleSampled, hfc, htr]
    · simp [update, hsamp, idleSampled, hfc, htr]
  · refine ⟨⟨fun hex => ?_, fun hcon => absurd hcon hsamp⟩,
      fun hcon => absurd hcon hsamp, fun _ => by simp [update, hsamp]⟩
    obtain ⟨g, r, hmem⟩ := hex
    rw [show update env ⟨o, fl, idx, .idle cnt cft ffi⟩ tick frame
        = (⟨some frame, fl, idx, .idle cnt cft ffi⟩, [], none) by simp [update, hsamp]] at hmem
    simp at hmem

/-- C6 witness: with the all-five classifier, a fresh `Idle` at tick `1`
samples (deadline `0` strictly passed) and re-arms to `1.1`. -/
theorem idle_sampling_gate_witness :
    ((∃ g r, .classify g r ∈ (update envAllFive idleFresh 1 0).2.1) ↔ (0 : ℚ) - 1 < 0)
    ∧ ((0 : ℚ) - 1 < 0 →
        .classify 0 5 ∈ (update envAllFive idleFresh 1 0).2.1
        ∧ (¬ 1 ≤ update_filter_trigger 0 5 →
            (update envAllFive idleFresh 1 0).1.st
              = .idle (update_filter_trigger 0 5)
                  ((update_filter_carousel envAllFive idleFresh.carouselIdx
                      (update_filter_trigger 0 5) 0 1 5).2.1)
                  (1 + 0.1)))
    ∧ (¬ (0 : ℚ) - 1 < 0 →
        update envAllFive idleFresh 1 0
          = ({ idleFresh with out_frame := some 0 }, [], none)) :=
  idle_sampling_gate envAllFive idleFresh 0 0 0 1 0 5 rfl rfl

/-- C7, counterexample: with a classifier that raises, processing two frames
from a fresh `Idle` stops at the first frame: the error escapes `update`
uncaught (there is no handler in `CanvasCore.process`), and the second frame
is never consumed — the display frame still holds the first frame. The
failure is fatal to the controller loop, not recovered locally. -/
theorem collaborator_failure_kills_loop_cex :
    processFrames envClassifierBoom idleFresh [(1, 41), (2, 42)]
      = ({ idleFresh with out_frame := some 41 }, some "boom") := by
  norm_num [processFrames, update, idleSampled, envClassifierBoom, envAllFive,
    idleFresh, initCore]

/-- C7 (amended): when a collaborator call raises during an update, the
mutations made before the raise are kept (in `Idle` only the published
display frame; in `Filter` only the countdown-hide command), the remaining
side effects of the dispatch are skipped and the state and its counters are
unchanged — but the exception propagates out of `update` uncaught, so the
controller loop terminates instead of continuing with the next frame. -/
theorem collaborator_failure_propagates (env : Env) (c : Core)
    (cnt cft ffi cdt tick : ℚ) (frame : Nat) (e : String) (rest : List (ℚ × Nat)) :
    (c.st = .idle cnt cft ffi → ffi - tick < 0 → env.countFingers frame = .error e →
      update env c tick frame = ({ c with out_frame := some frame }, [], some e))
    ∧ (c.st = .filter cdt → cdt - tick ≤ 0 → env.fgMask frame = .error e →
      update env c tick frame = (c, [.ui (.hideEls ["countdown"])], some e))
    ∧ (∀ mk, c.st = .filter cdt → cdt - tick ≤ 0 → env.fgMask frame = .ok mk →
      env.filterTransform c.carouselIdx (env.bitwiseAnd frame frame mk) = .error e →
      update env c tick frame
        = (c, [.ui (.hideEls ["countdown"]), .maskCall frame mk], some e))
    ∧ (∀ c1 evs, update env c tick frame = (c1, evs, some e) →
      processFrames env c ((tick, frame) :: rest) = (c1, some e)) := by
  refine ⟨?_, ?_, ?_, ?_⟩
  · intro hst hsamp henv
    obtain ⟨o, fl, idx, stv⟩ := c
    cases hst
    simp [update, hsamp, idleSampled, henv]
  · intro hst hexp henv
    obtain ⟨o, fl, idx, stv⟩ := c
    cases hst
    simp [update, not_lt.mpr hexp, filterExpired, henv]
  · intro mk hst hexp hmk henv
    obtain ⟨o, fl, idx, stv⟩ := c
    cases hst
    simp [update, not_lt.mpr hexp, filterExpired, hmk, henv]
  · intro c1 evs h
    simp [processFrames, h]

/-- C7 witness: the amended statement applied with the raising classifier on
a fresh `Idle`: the dispatch keeps the state, publishes the frame, reports
`"boom"`, and the loop over `[(1, 41), (2, 42)]` stops without consuming the
second frame. -/
theorem collaborator_failure_propagates_witness :
    update envClassifierBoom idleFresh 1 41
      = ({ idleFresh with out_frame := some 41 }, [], some "boom")
    ∧ processFrames envClassifierBoom idleFresh [(1, 41), (2, 42)]
      = ({ idleFresh with out_frame := some 41 }, some "boom") := by
  have h := collaborator_failure_propagates envClassifierBoom idleFresh
    0 0 0 0 1 41 "boom" [(2, 42)]
  have h1 := h.1 rfl (by norm_num) rfl
  exact ⟨h1, h.2.2.2 _ _ h1⟩

/-- Looking a key up after a dict assignment: the assigned key maps to the
new value, every other key is untouched. -/
lemma dictFind_dictSet (l : List (String × α)) (k k' : String) (v : α) :
    dictFind (dictSet l k v) k' = if k = k' then some v else dictFind l k' := by
  induction l with
  | nil =>
      by_cases h : k = k' <;> simp [dictSet, dictFind, h]
  | cons p rest ih =>
      obtain ⟨a, b⟩ := p
      by_cases h1 : a = k
      · subst h1
        by_cases h2 : a = k' <;> simp [dictSet, dictFind, h2]
      · by_cases h2 : a = k'
        · subst h2
          have hk : ¬ k = a := fun hc => h1 hc.symm
          simp [dictSet, dictFind, h1, hk]
        · simp [dictSet, dictFind, h1, h2, ih]

/-- Replacing the value at a present key leaves the presence of every key
unchanged. -/
lemma dictSet_present_keys (l : List (String × α)) (k m : String) (v w : α)
    (h : dictFind l k = some w) :
    (dictFind (dictSet l k v) m).isSome = (dictFind l m).isSome := by
  rw [dictFind_dictSet]
  by_cases hm : k = m
  · subst hm
    simp [h]
  · simp [hm]

/-- `UI.show` raises `KeyError` exactly when some addressed name is missing,
and returns normally exactly when every addressed name exists. -/
lemma uiShow_snd (ui : UIState) (names : List String) :
    (uiShow ui names).2
      = if ∀ n ∈ names, (dictFind ui.elements n).isSome then none
        else some "KeyError" := by
  induction names generalizing ui with
  | nil => simp [uiShow]
  | cons n rest ih =>
      rcases h : dictFind ui.elements n with _ | e
      · simp [uiShow, h]
      · have hiff : (∀ m ∈ rest,
            (dictFind (dictSet ui.elements n { e with visible := true }) m).isSome)
              ↔ (∀ m ∈ n :: rest, (dictFind ui.elements m).isSome) := by
          constructor
          · intro hall m hm
            rcases List.mem_cons.mp hm with rfl | hm
            · simp [h]
            · have hs := hall m hm
              rwa [dictSet_present_keys ui.elements n m _ e h] at hs
          · intro hall m hm
            rw [dictSet_present_keys ui.elements n m _ e h]
            exact hall m (List.mem_cons_of_mem _ hm)
        rw [show uiShow ui (n :: rest)
            = uiShow { ui with elements := dictSet ui.elements n { e with visible := true } }
                rest by simp [uiShow, h]]
        rw [ih]
        by_cases hall : ∀ m ∈ n :: rest, (dictFind ui.elements m).isSome
        · rw [if_pos (hiff.mpr hall), if_pos hall]
        · rw [if_neg (fun hc => hall (hiff.mp hc)), if_neg hall]

/-- `UI.hide` raises `KeyError` exactly when some addressed name is missing,
and returns normally exactly when every addressed name exists. -/
lemma uiHide_snd (ui : UIState) (names : List String) :
    (uiHide ui names).2
      = if ∀ n ∈ names, (dictFind ui.elements n).isSome then none
        else some "KeyError" := by
  induction names generalizing ui with
  | nil => simp [uiHide]
  | cons n rest ih =>
      rcases h : dictFind ui.elements n with _ | e
      · simp [uiHide, h]
      · have hiff : (∀ m ∈ rest,
            (dictFind (dictSet ui.elements n { e with visible := false }) m).isSome)
              ↔ (∀ m ∈ n :: rest, (dictFind ui.elements m).isSome) := by
          constructor
          · intro hall m hm
            rcases List.mem_cons.mp hm with rfl | hm
            · simp [h]
            · have hs := hall m hm
              rwa [dictSet_present_keys ui.elements n m _ e h] at hs
          · intro hall m hm
            rw [dictSet_present_keys ui.elements n m _ e h]
            exact hall m (List.mem_cons_of_mem _ hm)
        rw [show uiHide ui (n :: rest)
            = uiHide { ui with elements := dictSet ui.elements n { e with visible := false } }
                rest by simp [uiHide, h]]
        rw [ih]
        by_cases hall : ∀ m ∈ n :: rest, (dictFind ui.elements m).isSome
        · rw [if_pos (hiff.mpr hall), if_pos hall]
        · rw [if_neg (fun hc => hall (hiff.mp hc)), if_neg hall]

/-- C8 (confirmed): each name-addressed UI command — `set_text`, `set_prog`,
`show`, `hide` — raises a `KeyError` exactly when an addressed element was
never created, and succeeds exactly when every addressed element exists:
unknown names are never silently ignored. -/
theorem ui_commands_fail_iff_missing (ui : UIState) (name text : String)
    (v : ℚ) (names : List String) :
    ((∃ u, set_text ui name text = .ok u) ↔ (dictFind ui.elements name).isSome)
    ∧ (set_text ui name text = .error "KeyError" ↔ dictFind ui.elements name = none)
    ∧ ((∃ u, set_prog ui name v = .ok u) ↔ (dictFind ui.elements name).isSome)
    ∧ (set_prog ui name v = .error "KeyError" ↔ dictFind ui.elements name = none)
    ∧ ((uiShow ui names).2 = none ↔ ∀ n ∈ names, (dictFind ui.elements n).isSome)
    ∧ ((uiShow ui names).2 = some "KeyError"
        ↔ ¬ ∀ n ∈ names, (dictFind ui.elements n).isSome)
    ∧ ((uiHide ui names).2 = none ↔ ∀ n ∈ names, (dictFind ui.elements n).isSome)
    ∧ ((uiHide ui names).2 = some "KeyError"
        ↔ ¬ ∀ n ∈ names, (dictFind ui.elements n).isSome) := by
  refine ⟨?_, ?_, ?_, ?_, ?_, ?_, ?_, ?_⟩
  · rcases h : dictFind ui.elements name with _ | e <;> simp [set_text, h]
  · rcases h : dictFind ui.elements name with _ | e <;> simp [set_text, h]
  · rcases h : dictFind ui.elements name with _ | e <;> simp [set_prog, h]
  · rcases h : dictFind ui.elements name with _ | e <;> simp [set_prog, h]
  · rw [uiShow_snd]
    by_cases hall : ∀ n ∈ names, (dictFind ui.elements n).isSome <;>
      simp [hall, Option.ne_none_iff_isSome]
  · rw [uiShow_snd]
    by_cases hall : ∀ n ∈ names, (dictFind ui.elements n).isSome <;>
      simp [hall, Option.ne_none_iff_isSome]
  · rw [uiHide_snd]
    by_cases hall : ∀ n ∈ names, (dictFind ui.elements n).isSome <;>
      simp [hall, Option.ne_none_iff_isSome]
  · rw [uiHide_snd]
    by_cases hall : ∀ n ∈ names, (dictFind ui.elements n).isSome <;>
      simp [hall, Option.ne_none_iff_isSome]

/-- C9 (confirmed): the active state is one value of the sum type `St`
(exactly one variant is active at any time), and whenever an update dispatch
changes the active variant, the installed state equals a freshly constructed
instance of the new variant — every internal counter zero — passed through
that variant's entry hook at the controller's current (dispatch) tick; no
counter value survives from any earlier occupancy of the variant. -/
theorem transition_installs_fresh_state (env : Env) (c : Core) (tick : ℚ) (frame : Nat)
    (h : stTag (update env c tick frame).1.st ≠ stTag c.st) :
    (update env c tick frame).1.st
      = stateEnter (freshSt (stTag (update env c tick frame).1.st)) tick := by
  obtain ⟨o, fl, idx, stv⟩ := c
  cases stv with
  | startup => simp [update, stTag, freshSt, stateEnter]
  | idle a b f =>
      by_cases hsamp : f - tick < 0
      · rcases henv : env.countFingers frame with e | fc
        · simp [update, hsamp, idleSampled, henv, stTag] at h
        · by_cases htr : 1 ≤ update_filter_trigger a fc
          · simp [update, hsamp, idleSampled, henv, htr, filterEnterSt, stTag,
              freshSt, stateEnter]
          · simp [update, hsamp, idleSampled, henv, htr, stTag] at h
      · simp [update, hsamp, stTag] at h
  | filter q =>
      by_cases hrun : 0 < q - tick
      · simp [update, hrun, stTag] at h
      · rcases hmk : env.fgMask frame with e | mk
        · simp [update, hrun, filterExpired, hmk, stTag] at h
        · rcases htr : env.filterTransform idx (env.bitwiseAnd frame frame mk) with e | out
          · simp [update, hrun, filterExpired, hmk, htr, stTag] at h
          · simp [update, hrun, filterExpired, hmk, htr, showPicEnterSt, stTag,
              freshSt, stateEnter]
  | showPic q =>
      by_cases hexp : q - tick < 0
      · simp [update, hexp, stTag, freshSt, stateEnter]
      · simp [update, hexp, stTag] at h

/-- C9 witness: the first dispatch after `Startup` installs a fresh `Idle`
with zeroed counters, entered at the dispatch tick `3`. -/
theorem transition_installs_fresh_state_witness :
    (update envAllFive initCore 3 0).1.st
      = stateEnter (freshSt (stTag (update envAllFive initCore 3 0).1.st)) 3 :=
  transition_installs_fresh_state envAllFive initCore 3 0
    (by simp [update, initCore, stTag])

/-- C10 (confirmed): when a sampled `Idle` update drives the accumulator to
`≥ 1.0`, the transition to `Filter` is not the last effect of the dispatch:
the dispatch still evaluates the carousel check on the orphaned `Idle`
object and ends by emitting `set_prog("bar", accumulator)` with the final
value `≥ 1.0` — after `Filter.enter` has already emitted the command hiding
the bar, and while the installed state is `Filter`. -/
theorem trigger_dispatch_emits_progress_after_hide (env : Env) (c : Core)
    (cnt cft ffi tick : ℚ) (frame fc : Nat)
    (hst : c.st = .idle cnt cft ffi) (hs : ffi - tick < 0)
    (hfc : env.countFingers frame = .ok fc)
    (htr : 1 ≤ update_filter_trigger cnt fc) :
    (update env c tick frame).1.st = .filter (tick + 4)
    ∧ ∃ pre, (update env c tick frame).2.1
          = pre ++ [.ui (.setProg "bar" (update_filter_trigger cnt fc))]
        ∧ .ui (.hideEls ["help_1", "help_2", "filter_name", "bar"]) ∈ pre
        ∧ 1 ≤ update_filter_trigger cnt fc := by
  obtain ⟨o, fl, idx, stv⟩ := c
  cases hst
  constructor
  · simp [update, hs, idleSampled, hfc, htr, filterEnterSt]
  · refine ⟨.classify frame fc :: filterEnterEvents
        ++ (update_filter_carousel env idx (update_filter_trigger cnt fc) cft tick fc).2.2,
      ?_, ?_, htr⟩
    · simp [update, hs, idleSampled, hfc, htr]
    · simp [filterEnterEvents]

/-- C10 witness: at accumulator `0.95`, a five-finger sample reaches `1.0`,
enters `Filter`, and the dispatch still ends with the bar progress command. -/
theorem trigger_dispatch_emits_progress_after_hide_witness :
    (update envAllFive { initCore with st := .idle 0.95 0 0 } 1 0).1.st = .filter (1 + 4)
    ∧ ∃ pre, (update envAllFive { initCore with st := .idle 0.95 0 0 } 1 0).2.1
          = pre ++ [.ui (.setProg "bar" (update_filter_trigger 0.95 5))]
        ∧ .ui (.hideEls ["help_1", "help_2", "filter_name", "bar"]) ∈ pre
        ∧ 1 ≤ update_filter_trigger 0.95 5 :=
  trigger_dispatch_emits_progress_after_hide envAllFive
    { initCore with st := .idle 0.95 0 0 } 0.95 0 0 1 0 5 rfl (by norm_num) rfl
    (by norm_num [update_filter_trigger])

end SmartCanvas
